import Mathlib

/-!
# Verification of the b2bTender backend authorization and ownership model

Shallow embedding of the routes in `src/routes/auth.ts`, `src/routes/dashboard.ts`,
`src/routes/tenders.ts` and the JWT middleware (`verifyJWT`).

Modelling conventions:
* JavaScript strings that are only compared for equality are Lean `String`s;
  searchable text (tender title / description) is a list of code points
  (`JStr := List Nat`) so that `toLowerCase` / `includes` / SQL `ilike` become
  executable list functions.
* A request-body field is `Option τ`; JavaScript truthiness (`!x`) maps absent
  (`none`), the empty string and the number `0` to falsy.
* Each Supabase round-trip returns `{ data, error }`; a possible store failure is
  injected as an `Option String` parameter per call, in the order the handler
  issues the calls.  `none` means the call succeeded against the modelled store.
* Handlers are pure functions from the request plus the store to an HTTP
  response (status / message / payload), together with the resulting store and,
  where a claim needs it, the number of store round-trips performed.
-/

namespace B2B

/-! ## JavaScript string model (code points, ASCII lowercasing) -/

/-- A JavaScript string as a list of code points. -/
abbrev JStr := List Nat

/-- ASCII lowercasing of one code point, as both `String.prototype.toLowerCase`
and SQL `lower` act on ASCII letters. -/
def lowerC (n : Nat) : Nat := if 65 ≤ n ∧ n ≤ 90 then n + 32 else n

/-- JS `s.toLowerCase()`. -/
def lowerS (s : JStr) : JStr := s.map lowerC

/-- JS `s.includes(q)`: `q` occurs in `s` as a contiguous substring. -/
def jsIncludes (s q : JStr) : Bool := decide (q <:+: s)

/-- SQL `s ILIKE '%pat%'`: case-insensitive substring match (both sides lowered). -/
def ilikeContains (s pat : JStr) : Bool := decide (lowerS pat <:+: lowerS s)

theorem lowerC_idem (n : Nat) : lowerC (lowerC n) = lowerC n := by
  unfold lowerC
  split
  · rename_i h
    have : ¬ (65 ≤ n + 32 ∧ n + 32 ≤ 90) := by omega
    rw [if_neg this]
  · rfl

theorem lowerS_idem (s : JStr) : lowerS (lowerS s) = lowerS s := by
  unfold lowerS
  rw [List.map_map]
  exact List.map_congr_left (fun n _ => lowerC_idem n)

/-! ## JavaScript truthiness of request-body fields -/

/-- Truthiness of an optional string field: absent and `""` are falsy. -/
def truthyS : Option String → Bool
  | none => false
  | some s => !s.isEmpty

/-- Truthiness of an optional code-point string field. -/
def truthyJ : Option JStr → Bool
  | none => false
  | some s => !s.isEmpty

/-- Truthiness of an optional numeric field: absent and `0` are falsy. -/
def truthyI : Option Int → Bool
  | none => false
  | some i => i != 0

/-! ## Data model (rows of the external store) -/

structure User where
  id : String
  name : String
  email : String
  /-- bcrypt hash, as stored in the `password` column. -/
  password : String
  company_name : String
  industry : String
  industry_description : String
  logo : String
deriving DecidableEq, Repr

structure Tender where
  id : String
  creator_id : String
  title : JStr
  description : JStr
  budget : Int
  deadline : String
  created_at : Nat
deriving DecidableEq, Repr

structure Application where
  id : String
  tender_id : String
  applicant_id : String
  proposal_text : String
  status : String
  created_at : Nat
deriving DecidableEq, Repr

/-- The external store's visible state. -/
structure Store where
  users : List User
  tenders : List Tender
  applications : List Application
deriving DecidableEq, Repr

/-! ## Store queries (Supabase `select` with `eq` / `neq` / `order`) -/

def findUserByEmail (st : Store) (e : String) : Option User :=
  st.users.find? (fun u => u.email == e)

def findUserById (st : Store) (i : String) : Option User :=
  st.users.find? (fun u => u.id == i)

def findTenderById (st : Store) (i : String) : Option Tender :=
  st.tenders.find? (fun t => t.id == i)

def findApplicationById (st : Store) (i : String) : Option Application :=
  st.applications.find? (fun a => a.id == i)

/-- Supabase `order('created_at', { ascending: false })` on tenders. -/
def sortTendersDesc (ts : List Tender) : List Tender :=
  ts.mergeSort (fun a b => decide (b.created_at ≤ a.created_at))

/-- Supabase `order('created_at', { ascending: false })` on applications. -/
def sortAppsDesc (as : List Application) : List Application :=
  as.mergeSort (fun a b => decide (b.created_at ≤ a.created_at))

/-- Query `.from('tenders').select('*').eq('creator_id', uid).order('created_at', desc)`. -/
def selectTendersByCreatorDesc (st : Store) (uid : String) : List Tender :=
  sortTendersDesc (st.tenders.filter (fun t => t.creator_id == uid))

/-- Query `.from('tenders').select('*').neq('creator_id', uid).order('created_at', desc)`. -/
def selectTendersNotCreatorDesc (st : Store) (uid : String) : List Tender :=
  sortTendersDesc (st.tenders.filter (fun t => t.creator_id != uid))

/-- Query `.from('applications').select(...).eq('tender_id', tid).order('created_at', desc)`. -/
def selectAppsByTenderDesc (st : Store) (tid : String) : List Application :=
  sortAppsDesc (st.applications.filter (fun a => a.tender_id == tid))

/-! ## Token Service

Modelled from the spec: the `jsonwebtoken` library used by `loginHandler`
(`jwt.sign(payload, secret, { expiresIn: '1h' })`) and `verifyJWT`
(`jwt.verify(token, secret)`) is an external dependency; per the spec's Token
Service contract, `issue` signs `{userId, email}` with expiry = issuance + 1
hour, and `verify` checks the signature and that the current time is before
expiry.  The HMAC itself is abstracted as a deterministic tag over the secret
and payload. -/

structure JwtClaims where
  userId : String
  email : String
deriving DecidableEq, Repr

structure JwtPayload where
  claims : JwtClaims
  iat : Nat
  exp : Nat
deriving DecidableEq, Repr

structure SignedToken where
  payload : JwtPayload
  sig : Nat
deriving DecidableEq, Repr

/-- Deterministic signature tag standing in for the HMAC. -/
def mkSig (secret : Nat) (p : JwtPayload) : Nat :=
  (mixHash (UInt64.ofNat secret)
    (mixHash (String.hash p.claims.userId)
      (mixHash (String.hash p.claims.email)
        (mixHash (UInt64.ofNat p.iat) (UInt64.ofNat p.exp))))).toNat

/-- Issuance `jwt.sign({userId, email}, secret, { expiresIn: '1h' })` at clock time `now`
(seconds): `exp = iat + 3600`. -/
def jwtSign (userId email : String) (secret : Nat) (now : Nat) : SignedToken :=
  let p : JwtPayload := ⟨⟨userId, email⟩, now, now + 3600⟩
  ⟨p, mkSig secret p⟩

/-- Verification `jwt.verify(token, secret)` at clock time `now`: rejects a bad signature,
then rejects when `now ≥ exp` (the library treats `clockTimestamp >= exp` as
expired), otherwise returns the decoded claims. -/
def jwtVerify (secret : Nat) (t : SignedToken) (now : Nat) : Except String JwtClaims :=
  if t.sig ≠ mkSig secret t.payload then .error "invalid signature"
  else if t.payload.exp ≤ now then .error "jwt expired"
  else .ok t.payload.claims

/-! ## Auth middleware (`verifyJWT` in the middleware file) -/

/-- Outcome of the middleware: either a terminal rejection (the handler is never
invoked) or annotation of the request context with the decoded claims followed
by `next()`. -/
inductive MidResult where
  | reject (status : Nat) (message : String)
  | proceed (user : JwtClaims)
deriving DecidableEq, Repr

/-- JS `h.startsWith(pre)`, computed over the underlying character list. -/
def strStartsWith (h pre : String) : Bool :=
  pre.data.isPrefixOf h.data

/-- JS `s.split(sep)` for a single-character separator, over the character list. -/
def splitOnChar (cs : List Char) (sep : Char) : List (List Char) :=
  match cs with
  | [] => [[]]
  | c :: rest =>
    let r := splitOnChar rest sep
    if c = sep then [] :: r
    else (c :: r.headD []) :: r.tail

/-- Extraction `const token = authHeader.split(' ')[1]`. -/
def bearerToken (h : String) : String :=
  String.mk ((splitOnChar h.data ' ').getD 1 [])

/-- The middleware, parametric in the string-level token verifier
(`jwt.verify(token, JWT_SECRET)`), applied to the raw `Authorization` header. -/
def verifyJWT (verifyTok : String → Except String JwtClaims)
    (authHeader : Option String) : MidResult :=
  match authHeader with
  | none => .reject 401 "Missing token"
  | some h =>
    if ¬ strStartsWith h "Bearer " then .reject 401 "Missing token"
    else
      match verifyTok (bearerToken h) with
      | .ok u => .proceed u
      | .error _ => .reject 403 "Invalid or expired token"

/-- A protected route: the middleware runs first; the handler runs only when the
middleware proceeds, receiving the annotated `{userId, email}` context.  The
boolean records whether the handler was invoked. -/
def runProtected {ρ : Type} (verifyTok : String → Except String JwtClaims)
    (authHeader : Option String) (reject : Nat → String → ρ)
    (handler : JwtClaims → ρ) : ρ × Bool :=
  match verifyJWT verifyTok authHeader with
  | .reject s m => (reject s m, false)
  | .proceed u => (handler u, true)

/-! ## Identity handlers (`src/routes/auth.ts`) -/

/-- The public fields returned by signup's 201 response: exactly
`{id, name, email, company_name, industry, industry_description, logo}` —
no password column. -/
structure PublicUser where
  id : String
  name : String
  email : String
  company_name : String
  industry : String
  industry_description : String
  logo : String
deriving DecidableEq, Repr

def publicOf (u : User) : PublicUser :=
  ⟨u.id, u.name, u.email, u.company_name, u.industry, u.industry_description, u.logo⟩

structure SignupReq where
  name : Option String
  email : Option String
  password : Option String
  company_name : Option String
  industry : Option String
  industry_description : Option String
  /-- optional multipart logo file, modelled by the public URL the upload
  would yield. -/
  file : Option String
deriving Repr

structure SignupResp where
  status : Nat
  error : String
  message : String
  body : Option PublicUser
deriving DecidableEq, Repr

/-- Handler `signupHandler`.  `checkErr`, `uploadErr`, `insertErr` inject failures of
the three external calls in program order (duplicate-email select, storage
upload, user insert); `hash` is `bcrypt.hash(password, 10)`; `newId` is the id
the store assigns to the inserted row. -/
def signupHandler (st : Store) (checkErr uploadErr insertErr : Option String)
    (hash : String → String) (newId : String) (r : SignupReq) : SignupResp × Store :=
  if ¬ (truthyS r.name ∧ truthyS r.email ∧ truthyS r.password ∧
        truthyS r.company_name ∧ truthyS r.industry ∧ truthyS r.industry_description) then
    (⟨400, "ValidationError", "All fields are required", none⟩, st)
  else
    match checkErr with
    | some e => (⟨500, "ServerError", e, none⟩, st)
    | none =>
      match findUserByEmail st (r.email.getD "") with
      | some _ => (⟨409, "UserExistsError", "User with this email already exists", none⟩, st)
      | none =>
        if r.file.isSome ∧ uploadErr.isSome then
          (⟨500, "ServerError", uploadErr.getD "", none⟩, st)
        else
          let logoUrl := r.file.getD ""
          let createdUser : User :=
            ⟨newId, r.name.getD "", r.email.getD "", hash (r.password.getD ""),
             r.company_name.getD "", r.industry.getD "", r.industry_description.getD "",
             logoUrl⟩
          match insertErr with
          | some e => (⟨500, "ServerError", e, none⟩, st)
          | none =>
            (⟨201, "", "", some (publicOf createdUser)⟩,
             { st with users := st.users ++ [createdUser] })

structure LoginResp where
  status : Nat
  error : String
  message : String
  token : Option SignedToken
deriving DecidableEq, Repr

/-- Handler `loginHandler`.  `fetchErr` injects a failure of the user select;
`compare` is `bcrypt.compare(password, user.password)`. -/
def loginHandler (st : Store) (fetchErr : Option String)
    (compare : String → String → Bool) (secret : Nat) (now : Nat)
    (email password : Option String) : LoginResp :=
  if ¬ (truthyS email ∧ truthyS password) then
    ⟨400, "ValidationError", "Email and password are required", none⟩
  else
    match fetchErr with
    | some _ => ⟨500, "ServerError", "An unexpected error occurred", none⟩
    | none =>
      match findUserByEmail st (email.getD "") with
      | none => ⟨401, "AuthError", "Invalid email or password", none⟩
      | some user =>
        if ¬ compare (password.getD "") user.password then
          ⟨401, "AuthError", "Invalid email or password", none⟩
        else
          ⟨200, "", "", some (jwtSign user.id user.email secret now)⟩

/-! ## Dashboard handler (`src/routes/dashboard.ts`) -/

structure MeResp where
  status : Nat
  message : String
  user : Option PublicUser
deriving DecidableEq, Repr

/-- Handler `meHandler`: selects the caller's user row; the code folds a store error and
a missing row into the same `if (error || !user)` branch, answering 404. -/
def meHandler (st : Store) (err : Option String) (userId : String) : MeResp :=
  match err with
  | some _ => ⟨404, "User not found", none⟩
  | none =>
    match findUserById st userId with
    | none => ⟨404, "User not found", none⟩
    | some u => ⟨200, "", some (publicOf u)⟩

/-! ## Tender / application handlers (`src/routes/tenders.ts`) -/

structure SimpleResp where
  status : Nat
  message : String
deriving DecidableEq, Repr

/-- Handler `createTenderHandler` (`POST /`).  The presence check
`if (!title || !description || !budget || !deadline)` uses JS truthiness, so a
numeric `budget` of `0` is treated as missing.  `insertErr` injects a failure
of the insert; `newId`/`now` are the id and `created_at` the store assigns. -/
def createTenderHandler (st : Store) (insertErr : Option String)
    (newId : String) (now : Nat) (title description : Option JStr)
    (budget : Option Int) (deadline : Option String) (userId : String) :
    SimpleResp × Store :=
  if ¬ (truthyJ title ∧ truthyJ description ∧ truthyI budget ∧ truthyS deadline) then
    (⟨400, "All fields are required"⟩, st)
  else
    match insertErr with
    | some e => (⟨500, e⟩, st)
    | none =>
      let row : Tender :=
        ⟨newId, userId, title.getD [], description.getD [], budget.getD 0,
         deadline.getD "", now⟩
      (⟨201, "Tender created"⟩, { st with tenders := st.tenders ++ [row] })

structure TendersResp where
  status : Nat
  message : String
  tenders : Option (List Tender)
deriving DecidableEq, Repr

/-- Route `GET /my`: tenders with `creator_id == userId`, newest first. -/
def myTendersHandler (st : Store) (err : Option String) (userId : String) : TendersResp :=
  match err with
  | some e => ⟨500, e, none⟩
  | none => ⟨200, "", some (selectTendersByCreatorDesc st userId)⟩

/-- Route `GET /others`: tenders with `creator_id != userId`, newest first. -/
def othersTendersHandler (st : Store) (err : Option String) (userId : String) : TendersResp :=
  match err with
  | some e => ⟨500, e, none⟩
  | none => ⟨200, "", some (selectTendersNotCreatorDesc st userId)⟩

/-- Route `POST /:id/apply`: requires `proposal_text` (and the route params) truthy,
then inserts an application with `applicant_id = caller`; no ownership check. -/
def applyHandler (st : Store) (insertErr : Option String) (newId : String) (now : Nat)
    (tender_id : String) (proposal_text : Option String) (applicant_id : String) :
    SimpleResp × Store :=
  if ¬ (truthyS proposal_text ∧ ¬ tender_id.isEmpty ∧ ¬ applicant_id.isEmpty) then
    (⟨400, "Missing required fields"⟩, st)
  else
    match insertErr with
    | some e => (⟨500, e⟩, st)
    | none =>
      let row : Application :=
        ⟨newId, tender_id, applicant_id, proposal_text.getD "", "pending", now⟩
      (⟨201, "Application submitted successfully"⟩,
       { st with applications := st.applications ++ [row] })

structure AppsResp where
  status : Nat
  message : String
  applications : Option (List Application)
deriving DecidableEq, Repr

/-- Route `GET /:id/applications`: resolve the tender (`tenderErr` injects a failure
of that select — the code folds `tenderError || !tender` into one 403), check
`tender.creator_id !== requester_id` (403 "Access denied"), then list the
tender's applications (`appsErr` injects a failure of that select, 500). -/
def getApplicationsForTender (st : Store) (tenderErr appsErr : Option String)
    (tender_id requester_id : String) : AppsResp :=
  match tenderErr with
  | some _ => ⟨403, "Tender not found or unauthorized", none⟩
  | none =>
    match findTenderById st tender_id with
    | none => ⟨403, "Tender not found or unauthorized", none⟩
    | some tender =>
      if tender.creator_id ≠ requester_id then ⟨403, "Access denied", none⟩
      else
        match appsErr with
        | some e => ⟨500, e, none⟩
        | none => ⟨200, "", some (selectAppsByTenderDesc st tender_id)⟩

/-- Set `status` on the application row with the given id
(`.from('applications').update({ status }).eq('id', appId)`). -/
def setAppStatus (st : Store) (appId s : String) : Store :=
  { st with applications :=
      st.applications.map (fun a => if a.id == appId then { a with status := s } else a) }

structure PatchOut where
  status : Nat
  message : String
  store : Store
  /-- number of store round-trips the handler performed. -/
  queries : Nat
deriving DecidableEq, Repr

/-- Route `PATCH /applications/:id/status`: validate
`['accepted','rejected'].includes(status)` first (400, before any store call);
then resolve the application (`fetchErr || !appRecord` → 404); then resolve its
tender (`tenderError || !tender || tender.creator_id !== userId` → 403); then
update the status (`updateErr` → 500). -/
def updateApplicationStatus (st : Store) (fetchErr tenderErr updateErr : Option String)
    (appId : String) (status : Option String) (userId : String) : PatchOut :=
  if ¬ (status = some "accepted" ∨ status = some "rejected") then
    ⟨400, "Invalid status", st, 0⟩
  else
    match fetchErr with
    | some _ => ⟨404, "Application not found", st, 1⟩
    | none =>
      match findApplicationById st appId with
      | none => ⟨404, "Application not found", st, 1⟩
      | some appRecord =>
        match tenderErr with
        | some _ => ⟨403, "Unauthorized", st, 2⟩
        | none =>
          match findTenderById st appRecord.tender_id with
          | none => ⟨403, "Unauthorized", st, 2⟩
          | some tender =>
            if tender.creator_id ≠ userId then ⟨403, "Unauthorized", st, 2⟩
            else
              match updateErr with
              | some e => ⟨500, e, st, 3⟩
              | none =>
                let s := status.getD ""
                ⟨200, "Application " ++ s, setAppStatus st appId s, 3⟩

structure MyAppsResp where
  status : Nat
  message : String
  applications : Option (List (Application × Option Tender))
deriving DecidableEq, Repr

/-- Route `GET /my-applications`: the caller's applications, each joined with its
parent tender's row (`tenders(title, deadline)`), newest first. -/
def myApplicationsHandler (st : Store) (err : Option String) (applicant_id : String) :
    MyAppsResp :=
  match err with
  | some e => ⟨500, e, none⟩
  | none =>
    ⟨200, "",
     some ((sortAppsDesc (st.applications.filter (fun a => a.applicant_id == applicant_id))).map
       (fun a => (a, findTenderById st a.tender_id)))⟩

structure NestedResp where
  status : Nat
  message : String
  tenders : Option (List (Tender × List Application))
deriving DecidableEq, Repr

/-- Route `GET /my-with-applications`: the caller's tenders, newest first, each with
its nested applications. -/
def myWithApplicationsHandler (st : Store) (err : Option String) (userId : String) :
    NestedResp :=
  match err with
  | some e => ⟨500, e, none⟩
  | none =>
    ⟨200, "",
     some ((selectTendersByCreatorDesc st userId).map
       (fun t => (t, st.applications.filter (fun a => a.tender_id == t.id))))⟩

/-- Route `GET /search?q=`: `query = q?.toLowerCase()`; `!query` → 400; otherwise the
store returns the non-own tenders whose title or description matches
`ilike %query%` (newest first; `err` injects a failure of that select), and the
handler re-filters in JavaScript with `includes(query)` on the lowered title
and description (the `tender.users` fields are never selected, so those two
disjuncts of the source's filter are always undefined, i.e. false). -/
def searchHandler (st : Store) (err : Option String) (q : Option JStr)
    (userId : String) : TendersResp :=
  let query := (q.map lowerS).getD []
  if query.isEmpty then ⟨400, "Search query is required", none⟩
  else
    match err with
    | some e => ⟨500, e, none⟩
    | none =>
      let data := sortTendersDesc (st.tenders.filter (fun t =>
        t.creator_id != userId &&
          (ilikeContains t.title query || ilikeContains t.description query)))
      let filtered := data.filter (fun t =>
        jsIncludes (lowerS t.title) query || jsIncludes (lowerS t.description) query)
      ⟨200, "", some filtered⟩

/-! ## Shared helper lemmas -/

theorem sortTendersDesc_perm (ts : List Tender) : (sortTendersDesc ts).Perm ts :=
  List.mergeSort_perm ts _

theorem sortTendersDesc_mem (t : Tender) (ts : List Tender) :
    t ∈ sortTendersDesc ts ↔ t ∈ ts :=
  List.mem_mergeSort

theorem sortTendersDesc_sorted (ts : List Tender) :
    (sortTendersDesc ts).Sorted (fun a b => b.created_at ≤ a.created_at) := by
  have h : (ts.mergeSort (fun a b => decide (b.created_at ≤ a.created_at))).Pairwise
      (fun a b : Tender => decide (b.created_at ≤ a.created_at) = true) :=
    List.sorted_mergeSort
      (fun a b c h1 h2 => by
        simp only [decide_eq_true_eq] at h1 h2 ⊢
        omega)
      (fun a b => by
        simp only [Bool.or_eq_true, decide_eq_true_eq]
        omega) ts
  exact h.imp (fun hab => by simpa using hab)

/-! ## Claim theorems -/

/-- **C10** (confirmed): Create Tender rejects a request whose `budget` field is
the number `0` with HTTP 400 "All fields are required" and inserts nothing: the
JS truthiness check `if (!title || !description || !budget || !deadline)`
treats `0` as a missing field. -/
theorem createTender_budget_zero_rejected (st : Store) (insertErr : Option String)
    (newId : String) (now : Nat) (title description : Option JStr)
    (deadline : Option String) (userId : String) :
    createTenderHandler st insertErr newId now title description (some 0) deadline userId
      = (⟨400, "All fields are required"⟩, st) := by
  unfold createTenderHandler
  simp [truthyI]

/-- **C5** (confirmed): a status-update request whose body `status` is neither
`"accepted"` nor `"rejected"` (including an absent status) answers HTTP 400
"Invalid status", performs zero store round-trips, and leaves the store — in
particular every stored Application — unchanged. -/
theorem updateStatus_invalid_status_no_query (st : Store)
    (fetchErr tenderErr updateErr : Option String) (appId : String)
    (status : Option String) (userId : String)
    (h1 : status ≠ some "accepted") (h2 : status ≠ some "rejected") :
    updateApplicationStatus st fetchErr tenderErr updateErr appId status userId
      = ⟨400, "Invalid status", st, 0⟩ := by
  unfold updateApplicationStatus
  have h : ¬ (status = some "accepted" ∨ status = some "rejected") := by
    intro h
    cases h with
    | inl h => exact h1 h
    | inr h => exact h2 h
  simp [h]

theorem updateStatus_invalid_status_no_query_witness :
    updateApplicationStatus ⟨[], [], []⟩ none none none "a1" (some "maybe") "B"
      = ⟨400, "Invalid status", ⟨[], [], []⟩, 0⟩ :=
  updateStatus_invalid_status_no_query ⟨[], [], []⟩ none none none "a1" (some "maybe") "B"
    (by decide) (by decide)

/-- **C2** (confirmed): for every protected route — any token verifier, any
rejection shape, any handler — (a) an absent `Authorization` header is rejected
401 "Missing token" without invoking the handler; (b) so is a header that does
not start with `"Bearer "`; (c) a Bearer header whose token fails verification
is rejected 403 "Invalid or expired token" without invoking the handler; (d) on
successful verification the handler runs on the decoded `{userId, email}`
context. -/
theorem authGateway_spec {ρ : Type} (verifyTok : String → Except String JwtClaims)
    (reject : Nat → String → ρ) (handler : JwtClaims → ρ) :
    (runProtected verifyTok none reject handler = (reject 401 "Missing token", false)) ∧
    (∀ h : String, ¬ strStartsWith h "Bearer " →
      runProtected verifyTok (some h) reject handler = (reject 401 "Missing token", false)) ∧
    (∀ (h : String) (e : String), strStartsWith h "Bearer " →
      verifyTok (bearerToken h) = .error e →
      runProtected verifyTok (some h) reject handler
        = (reject 403 "Invalid or expired token", false)) ∧
    (∀ (h : String) (u : JwtClaims), strStartsWith h "Bearer " →
      verifyTok (bearerToken h) = .ok u →
      runProtected verifyTok (some h) reject handler = (handler u, true)) := by
  refine ⟨rfl, ?_, ?_, ?_⟩
  · intro h hpre
    simp [runProtected, verifyJWT, hpre]
  · intro h e hpre hver
    simp [runProtected, verifyJWT, hpre, hver]
  · intro h u hpre hver
    simp [runProtected, verifyJWT, hpre, hver]

/-- Sample token verifier used to instantiate the gateway theorem. -/
def demoVerifyTok : String → Except String JwtClaims :=
  fun s => if s = "tok" then .ok ⟨"u1", "a@b"⟩ else .error "bad token"

theorem authGateway_spec_witness :
    (runProtected demoVerifyTok none Prod.mk (fun u => (200, u.userId))
      = ((401, "Missing token"), false)) ∧
    (runProtected demoVerifyTok (some "Basic tok") Prod.mk (fun u => (200, u.userId))
      = ((401, "Missing token"), false)) ∧
    (runProtected demoVerifyTok (some "Bearer oops") Prod.mk (fun u => (200, u.userId))
      = ((403, "Invalid or expired token"), false)) ∧
    (runProtected demoVerifyTok (some "Bearer tok") Prod.mk (fun u => (200, u.userId))
      = ((200, "u1"), true)) :=
  ⟨(authGateway_spec demoVerifyTok Prod.mk (fun u => (200, u.userId))).1,
   (authGateway_spec demoVerifyTok Prod.mk (fun u => (200, u.userId))).2.1
     "Basic tok" (by decide),
   (authGateway_spec demoVerifyTok Prod.mk (fun u => (200, u.userId))).2.2.1
     "Bearer oops" "bad token" (by decide) (by rfl),
   (authGateway_spec demoVerifyTok Prod.mk (fun u => (200, u.userId))).2.2.2
     "Bearer tok" ⟨"u1", "a@b"⟩ (by decide) (by rfl)⟩

/-- **C3** (confirmed, jsonwebtoken modelled from the spec): a token issued at
time `T` for `{userId, email}` verifies successfully at every time strictly
before `T + 3600` seconds, returning the same `{userId, email}`, and fails at
every time after `T + 3600` (so it is accepted at `T + 59·60` and rejected at
`T + 61·60`). -/
theorem token_lifetime (userId email : String) (secret T t : Nat) :
    (t < T + 3600 →
      jwtVerify secret (jwtSign userId email secret T) t = .ok ⟨userId, email⟩) ∧
    (T + 3600 < t →
      jwtVerify secret (jwtSign userId email secret T) t = .error "jwt expired") := by
  constructor
  · intro h
    have : ¬ (T + 3600 ≤ t) := by omega
    simp [jwtVerify, jwtSign, this]
  · intro h
    have : T + 3600 ≤ t := by omega
    simp [jwtVerify, jwtSign, this]

theorem token_lifetime_witness :
    jwtVerify 12 (jwtSign "u1" "a@b" 12 0) 3540 = .ok ⟨"u1", "a@b"⟩ ∧
    jwtVerify 12 (jwtSign "u1" "a@b" 12 0) 3660 = .error "jwt expired" :=
  ⟨(token_lifetime "u1" "a@b" 12 0 3540).1 (by omega),
   (token_lifetime "u1" "a@b" 12 0 3660).2 (by omega)⟩

/-- **C4** (confirmed): with both login fields present, the response for a
nonexistent email and the response for an existing email with a non-matching
password are one and the same value — status 401, error `AuthError`, message
"Invalid email or password", no token. -/
theorem login_failures_indistinguishable (st : Store)
    (compare : String → String → Bool) (secret now : Nat)
    (e1 p1 e2 p2 : String) (u : User)
    (he1 : ¬ e1.isEmpty) (hp1 : ¬ p1.isEmpty) (he2 : ¬ e2.isEmpty) (hp2 : ¬ p2.isEmpty)
    (hAbsent : findUserByEmail st e1 = none)
    (hFound : findUserByEmail st e2 = some u)
    (hMismatch : compare p2 u.password = false) :
    loginHandler st none compare secret now (some e1) (some p1)
      = loginHandler st none compare secret now (some e2) (some p2) ∧
    loginHandler st none compare secret now (some e1) (some p1)
      = ⟨401, "AuthError", "Invalid email or password", none⟩ := by
  have r1 : loginHandler st none compare secret now (some e1) (some p1)
      = ⟨401, "AuthError", "Invalid email or password", none⟩ := by
    unfold loginHandler
    simp [truthyS, he1, hp1, hAbsent]
  have r2 : loginHandler st none compare secret now (some e2) (some p2)
      = ⟨401, "AuthError", "Invalid email or password", none⟩ := by
    unfold loginHandler
    simp [truthyS, he2, hp2, hFound, hMismatch]
  exact ⟨r1.trans r2.symm, r1⟩

/-- Store with one registered user, for instantiating the login/signup
theorems. -/
def demoUser : User :=
  ⟨"u1", "Ann", "ann@x.com", "$2a$10$hash", "AnnCo", "Roofing", "roofs", ""⟩

def demoUserStore : Store := ⟨[demoUser], [], []⟩

theorem login_failures_indistinguishable_witness :
    loginHandler demoUserStore none (fun p h => p == h) 0 0
        (some "bob@x.com") (some "pw")
      = loginHandler demoUserStore none (fun p h => p == h) 0 0
        (some "ann@x.com") (some "wrong") ∧
    loginHandler demoUserStore none (fun p h => p == h) 0 0
        (some "bob@x.com") (some "pw")
      = ⟨401, "AuthError", "Invalid email or password", none⟩ :=
  login_failures_indistinguishable demoUserStore (fun p h => p == h) 0 0
    "bob@x.com" "pw" "ann@x.com" "wrong" demoUser
    (by decide) (by decide) (by decide) (by decide)
    (by rfl) (by rfl) (by rfl)

/-- All six required signup fields are truthy. -/
def allSignupFieldsTruthy (r : SignupReq) : Prop :=
  truthyS r.name ∧ truthyS r.email ∧ truthyS r.password ∧
  truthyS r.company_name ∧ truthyS r.industry ∧ truthyS r.industry_description

instance (r : SignupReq) : Decidable (allSignupFieldsTruthy r) := by
  unfold allSignupFieldsTruthy
  infer_instance

/-- **C6** (confirmed): signup answers 400 and leaves the store unchanged when
any of the six required fields is empty or absent; answers 409 and leaves the
store unchanged when a user with the same email already exists; and otherwise
(store calls succeeding) answers 201 with a body consisting of exactly the
public fields `{id, name, email, company_name, industry, industry_description,
logo}` — a value that does not involve the password hash (it is the same for
every hash function). -/
theorem signup_spec (st : Store) (checkErr uploadErr insertErr : Option String)
    (hash : String → String) (newId : String) (r : SignupReq) :
    (¬ allSignupFieldsTruthy r →
      signupHandler st checkErr uploadErr insertErr hash newId r
        = (⟨400, "ValidationError", "All fields are required", none⟩, st)) ∧
    (∀ u : User, allSignupFieldsTruthy r →
      findUserByEmail st (r.email.getD "") = some u →
      signupHandler st none uploadErr insertErr hash newId r
        = (⟨409, "UserExistsError", "User with this email already exists", none⟩, st)) ∧
    (allSignupFieldsTruthy r →
      findUserByEmail st (r.email.getD "") = none →
      (signupHandler st none none none hash newId r).1.status = 201 ∧
      (signupHandler st none none none hash newId r).1.body
        = some ⟨newId, r.name.getD "", r.email.getD "", r.company_name.getD "",
                r.industry.getD "", r.industry_description.getD "", r.file.getD ""⟩) := by
  refine ⟨?_, ?_, ?_⟩
  · intro hmiss
    unfold signupHandler
    rw [if_pos]
    exact fun h => hmiss h
  · intro u hall hfound
    unfold signupHandler
    rw [if_neg (by exact fun h => h hall)]
    simp [hfound]
  · intro hall habsent
    unfold signupHandler
    rw [if_neg (by exact fun h => h hall)]
    simp [habsent, publicOf]

theorem signup_spec_witness :
    (signupHandler demoUserStore none none none (fun p => "H" ++ p) "u9"
        ⟨some "Bob", some "bob@x.com", some "", some "BobCo", some "Roofs", some "d", none⟩
      = (⟨400, "ValidationError", "All fields are required", none⟩, demoUserStore)) ∧
    (signupHandler demoUserStore none none none (fun p => "H" ++ p) "u9"
        ⟨some "Ann2", some "ann@x.com", some "pw", some "Co", some "Ind", some "d", none⟩
      = (⟨409, "UserExistsError", "User with this email already exists", none⟩,
         demoUserStore)) ∧
    ((signupHandler demoUserStore none none none (fun p => "H" ++ p) "u9"
        ⟨some "Bob", some "bob@x.com", some "pw", some "BobCo", some "Roofs", some "d",
         none⟩).1.status = 201 ∧
     (signupHandler demoUserStore none none none (fun p => "H" ++ p) "u9"
        ⟨some "Bob", some "bob@x.com", some "pw", some "BobCo", some "Roofs", some "d",
         none⟩).1.body
       = some ⟨"u9", "Bob", "bob@x.com", "BobCo", "Roofs", "d", ""⟩) :=
  ⟨(signup_spec demoUserStore none none none (fun p => "H" ++ p) "u9"
      ⟨some "Bob", some "bob@x.com", some "", some "BobCo", some "Roofs", some "d",
       none⟩).1 (by decide),
   (signup_spec demoUserStore none none none (fun p => "H" ++ p) "u9"
      ⟨some "Ann2", some "ann@x.com", some "pw", some "Co", some "Ind", some "d",
       none⟩).2.1 demoUser (by decide) (by rfl),
   (signup_spec demoUserStore none none none (fun p => "H" ++ p) "u9"
      ⟨some "Bob", some "bob@x.com", some "pw", some "BobCo", some "Roofs", some "d",
       none⟩).2.2 (by decide) (by rfl)⟩

/-- **C7** (confirmed): for every caller `uid`, "my tenders" answers 200 with
exactly (a permutation characterisation plus membership) the stored tenders
whose `creator_id` equals `uid`, and "others" with exactly those whose
`creator_id` differs, each ordered by `created_at` descending; in particular no
tender of another user appears in "my tenders". -/
theorem my_others_tenders_exact (st : Store) (uid : String) :
    myTendersHandler st none uid = ⟨200, "", some (selectTendersByCreatorDesc st uid)⟩ ∧
    othersTendersHandler st none uid
      = ⟨200, "", some (selectTendersNotCreatorDesc st uid)⟩ ∧
    (selectTendersByCreatorDesc st uid).Perm
      (st.tenders.filter (fun t => t.creator_id == uid)) ∧
    (selectTendersNotCreatorDesc st uid).Perm
      (st.tenders.filter (fun t => t.creator_id != uid)) ∧
    (∀ t : Tender, t ∈ selectTendersByCreatorDesc st uid ↔
      t ∈ st.tenders ∧ t.creator_id = uid) ∧
    (∀ t : Tender, t ∈ selectTendersNotCreatorDesc st uid ↔
      t ∈ st.tenders ∧ t.creator_id ≠ uid) ∧
    (selectTendersByCreatorDesc st uid).Sorted (fun a b => b.created_at ≤ a.created_at) ∧
    (selectTendersNotCreatorDesc st uid).Sorted (fun a b => b.created_at ≤ a.created_at) := by
  refine ⟨rfl, rfl, sortTendersDesc_perm _, sortTendersDesc_perm _, ?_, ?_,
    sortTendersDesc_sorted _, sortTendersDesc_sorted _⟩
  · intro t
    rw [selectTendersByCreatorDesc, sortTendersDesc_mem, List.mem_filter]
    simp
  · intro t
    rw [selectTendersNotCreatorDesc, sortTendersDesc_mem, List.mem_filter]
    simp

theorem my_others_tenders_exact_witness :
    myTendersHandler ⟨[], [⟨"t1", "A", [114], [100], 5, "d", 10⟩], []⟩ none "A"
      = ⟨200, "",
          some (selectTendersByCreatorDesc
            ⟨[], [⟨"t1", "A", [114], [100], 5, "d", 10⟩], []⟩ "A")⟩ ∧
    ((⟨"t1", "A", [114], [100], 5, "d", 10⟩ : Tender) ∈
      selectTendersByCreatorDesc ⟨[], [⟨"t1", "A", [114], [100], 5, "d", 10⟩], []⟩ "A") ∧
    ((⟨"t1", "A", [114], [100], 5, "d", 10⟩ : Tender) ∉
      selectTendersNotCreatorDesc ⟨[], [⟨"t1", "A", [114], [100], 5, "d", 10⟩], []⟩ "A") :=
  ⟨(my_others_tenders_exact ⟨[], [⟨"t1", "A", [114], [100], 5, "d", 10⟩], []⟩ "A").1,
   ((my_others_tenders_exact ⟨[], [⟨"t1", "A", [114], [100], 5, "d", 10⟩], []⟩
       "A").2.2.2.2.1 ⟨"t1", "A", [114], [100], 5, "d", 10⟩).2 ⟨by decide, rfl⟩,
   fun hmem =>
     (((my_others_tenders_exact ⟨[], [⟨"t1", "A", [114], [100], 5, "d", 10⟩], []⟩
         "A").2.2.2.2.2.1 ⟨"t1", "A", [114], [100], 5, "d", 10⟩).1 hmem).2 rfl⟩

/-- **C8** (confirmed): search with an absent or empty `q` answers 400; with a
non-empty `q` it answers 200 with exactly the stored tenders whose creator is
not the caller and whose title or description contains `q` as a
case-insensitive substring. -/
theorem search_exact (st : Store) (uid : String) :
    searchHandler st none none uid = ⟨400, "Search query is required", none⟩ ∧
    searchHandler st none (some []) uid = ⟨400, "Search query is required", none⟩ ∧
    (∀ q : JStr, q ≠ [] →
      ∃ l : List Tender, searchHandler st none (some q) uid = ⟨200, "", some l⟩ ∧
        ∀ t : Tender, t ∈ l ↔
          t ∈ st.tenders ∧ t.creator_id ≠ uid ∧
            (lowerS q <:+: lowerS t.title ∨ lowerS q <:+: lowerS t.description)) := by
  refine ⟨rfl, rfl, ?_⟩
  intro q hq
  have hne : ¬ (lowerS q).isEmpty := by
    cases q with
    | nil => exact absurd rfl hq
    | cons a l => simp [lowerS]
  refine ⟨(sortTendersDesc (st.tenders.filter (fun t =>
      t.creator_id != uid &&
        (ilikeContains t.title (lowerS q) ||
         ilikeContains t.description (lowerS q))))).filter
      (fun t => jsIncludes (lowerS t.title) (lowerS q) ||
        jsIncludes (lowerS t.description) (lowerS q)), ?_, ?_⟩
  · simp [searchHandler, hne]
  intro t
  rw [List.mem_filter, sortTendersDesc_mem, List.mem_filter]
  simp only [jsIncludes, ilikeContains, lowerS_idem, Bool.and_eq_true, Bool.or_eq_true,
    decide_eq_true_eq, bne_iff_ne, ne_eq]
  tauto

def searchDemoStore : Store :=
  ⟨[], [⟨"t1", "A", [82, 111, 111, 102], [100], 5, "2026-01-01", 10⟩], []⟩

theorem search_exact_witness :
    ∃ l : List Tender,
      searchHandler searchDemoStore none (some [82, 79, 79]) "B" = ⟨200, "", some l⟩ ∧
      ∀ t : Tender, t ∈ l ↔
        t ∈ searchDemoStore.tenders ∧ t.creator_id ≠ "B" ∧
          (lowerS [82, 79, 79] <:+: lowerS t.title ∨
           lowerS [82, 79, 79] <:+: lowerS t.description) :=
  (search_exact searchDemoStore "B").2.2 [82, 79, 79] (by decide)

def cexTender : Tender := ⟨"t1", "A", [114], [100], 5, "2026-01-01", 10⟩

def cexApp : Application := ⟨"a1", "t1", "B", "p", "pending", 3⟩

/-- **C1** counterexample: caller "C" (≠ creator "A") issues a valid status
change for application id "a1".  When the application row does not exist the
response is 404, while with the row present it is 403 — the status is not 403
in all cases and is not independent of the application's existence. -/
theorem ownership_403_claim_cex :
    (updateApplicationStatus ⟨[], [cexTender], []⟩ none none none
        "a1" (some "accepted") "C").status = 404 ∧
    (updateApplicationStatus ⟨[], [cexTender], [cexApp]⟩ none none none
        "a1" (some "accepted") "C").status = 403 ∧
    (updateApplicationStatus ⟨[], [cexTender], []⟩ none none none
        "a1" (some "accepted") "C").status ≠ 403 := by
  refine ⟨rfl, rfl, by decide⟩

/-- **C1** amended: for a caller who does not own the relevant tender —
whether or not that tender exists — listing applications answers 403, and a
valid status change answers 403 and leaves the store unchanged *provided the
application row resolves*; when the application row does not exist the status
change answers 404 instead of 403. -/
theorem ownership_403_amended (st : Store) (uid : String) :
    (∀ tid : String,
      (∀ t : Tender, findTenderById st tid = some t → t.creator_id ≠ uid) →
      getApplicationsForTender st none none tid uid
        = ⟨403, (match findTenderById st tid with
                 | none => "Tender not found or unauthorized"
                 | some _ => "Access denied"), none⟩) ∧
    (∀ (appId : String) (status : Option String) (app : Application),
      (status = some "accepted" ∨ status = some "rejected") →
      findApplicationById st appId = some app →
      (∀ t : Tender, findTenderById st app.tender_id = some t → t.creator_id ≠ uid) →
      updateApplicationStatus st none none none appId status uid
        = ⟨403, "Unauthorized", st, 2⟩) ∧
    (∀ (appId : String) (status : Option String),
      (status = some "accepted" ∨ status = some "rejected") →
      findApplicationById st appId = none →
      updateApplicationStatus st none none none appId status uid
        = ⟨404, "Application not found", st, 1⟩) := by
  refine ⟨?_, ?_, ?_⟩
  · intro tid hown
    unfold getApplicationsForTender
    cases hfind : findTenderById st tid with
    | none => simp
    | some t =>
      have : t.creator_id ≠ uid := hown t hfind
      simp [this]
  · intro appId status app hstatus happ hown
    unfold updateApplicationStatus
    rw [if_neg (not_not_intro hstatus)]
    cases hfind : findTenderById st app.tender_id with
    | none => simp [happ, hfind]
    | some t =>
      have : t.creator_id ≠ uid := hown t hfind
      simp [happ, hfind, this]
  · intro appId status hstatus happ
    unfold updateApplicationStatus
    rw [if_neg (not_not_intro hstatus)]
    simp [happ]

theorem ownership_403_amended_witness :
    (getApplicationsForTender ⟨[], [cexTender], [cexApp]⟩ none none "t1" "C"
      = ⟨403, "Access denied", none⟩) ∧
    (getApplicationsForTender ⟨[], [cexTender], [cexApp]⟩ none none "t9" "C"
      = ⟨403, "Tender not found or unauthorized", none⟩) ∧
    (updateApplicationStatus ⟨[], [cexTender], [cexApp]⟩ none none none
        "a1" (some "accepted") "C"
      = ⟨403, "Unauthorized", ⟨[], [cexTender], [cexApp]⟩, 2⟩) ∧
    (updateApplicationStatus ⟨[], [cexTender], []⟩ none none none
        "a1" (some "accepted") "C"
      = ⟨404, "Application not found", ⟨[], [cexTender], []⟩, 1⟩) :=
  ⟨(ownership_403_amended ⟨[], [cexTender], [cexApp]⟩ "C").1 "t1" (by decide),
   (ownership_403_amended ⟨[], [cexTender], [cexApp]⟩ "C").1 "t9" (by decide),
   (ownership_403_amended ⟨[], [cexTender], [cexApp]⟩ "C").2.1 "a1" (some "accepted")
     cexApp (Or.inl rfl) (by rfl) (by decide),
   (ownership_403_amended ⟨[], [cexTender], []⟩ "C").2.2 "a1" (some "accepted")
     (Or.inl rfl) (by rfl)⟩

/-- **C9** counterexample: in `GET /dashboard/me` a failing store query is
folded into `if (error || !user)` and answered 404 "User not found", not 500 —
so not every store failure surfaces as a 500 ServerError. -/
theorem store_failure_500_claim_cex :
    (meHandler ⟨[], [], []⟩ (some "connection reset") "u1").status = 404 ∧
    (meHandler ⟨[], [], []⟩ (some "connection reset") "u1").status ≠ 500 := by
  refine ⟨rfl, by decide⟩

/-- **C9** amended: every handler maps a store failure to a terminal HTTP
response (never a crash), but the status depends on which call failed: the
secondary list/insert/update calls map to 500, while the resolution lookups are
folded into the merged responses — the user lookup in `/me` → 404, the tender
lookup in list-applications → 403, and in the status update the application
lookup → 404 and the tender lookup → 403. -/
theorem store_failure_mapping (st : Store) (e : String) (uid tid appId : String)
    (appsErr tenderErr2 updateErr : Option String) :
    (meHandler st (some e) uid).status = 404 ∧
    (myTendersHandler st (some e) uid).status = 500 ∧
    (othersTendersHandler st (some e) uid).status = 500 ∧
    (myApplicationsHandler st (some e) uid).status = 500 ∧
    (myWithApplicationsHandler st (some e) uid).status = 500 ∧
    (getApplicationsForTender st (some e) appsErr tid uid).status = 403 ∧
    (∀ t : Tender, findTenderById st tid = some t → t.creator_id = uid →
      (getApplicationsForTender st none (some e) tid uid).status = 500) ∧
    (∀ status : Option String, (status = some "accepted" ∨ status = some "rejected") →
      (updateApplicationStatus st (some e) tenderErr2 updateErr appId status uid).status
        = 404) ∧
    (∀ (status : Option String) (app : Application),
      (status = some "accepted" ∨ status = some "rejected") →
      findApplicationById st appId = some app →
      (updateApplicationStatus st none (some e) updateErr appId status uid).status = 403) ∧
    (∀ (status : Option String) (app : Application) (t : Tender),
      (status = some "accepted" ∨ status = some "rejected") →
      findApplicationById st appId = some app →
      findTenderById st app.tender_id = some t → t.creator_id = uid →
      (updateApplicationStatus st none none (some e) appId status uid).status = 500) ∧
    (∀ r : SignupReq, allSignupFieldsTruthy r → ∀ (hash : String → String) (newId : String),
      ((signupHandler st (some e) none none hash newId r).1.status = 500 ∧
       (signupHandler st (some e) none none hash newId r).2 = st)) ∧
    (∀ em pw : String, ¬ em.isEmpty → ¬ pw.isEmpty →
      ∀ (compare : String → String → Bool) (secret now : Nat),
      (loginHandler st (some e) compare secret now (some em) (some pw)).status = 500) ∧
    (∀ (title description : JStr) (budget : Int) (deadline : String),
      ¬ title.isEmpty → ¬ description.isEmpty → budget ≠ 0 → ¬ deadline.isEmpty →
      ∀ (newId : String) (now : Nat),
      ((createTenderHandler st (some e) newId now (some title) (some description)
          (some budget) (some deadline) uid).1.status = 500 ∧
       (createTenderHandler st (some e) newId now (some title) (some description)
          (some budget) (some deadline) uid).2 = st)) ∧
    (∀ pt : String, ¬ pt.isEmpty → ¬ tid.isEmpty → ¬ uid.isEmpty →
      ∀ (newId : String) (now : Nat),
      ((applyHandler st (some e) newId now tid (some pt) uid).1.status = 500 ∧
       (applyHandler st (some e) newId now tid (some pt) uid).2 = st)) ∧
    (∀ q : JStr, q ≠ [] → (searchHandler st (some e) (some q) uid).status = 500) := by
  refine ⟨rfl, rfl, rfl, rfl, rfl, rfl, ?_, ?_, ?_, ?_, ?_, ?_, ?_, ?_, ?_⟩
  · intro t hfind hcreator
    simp [getApplicationsForTender, hfind, hcreator]
  · intro status hstatus
    unfold updateApplicationStatus
    rw [if_neg (not_not_intro hstatus)]
  · intro status app hstatus happ
    unfold updateApplicationStatus
    rw [if_neg (not_not_intro hstatus)]
    simp [happ]
  · intro status app t hstatus happ hfind hcreator
    unfold updateApplicationStatus
    rw [if_neg (not_not_intro hstatus)]
    simp [happ, hfind, hcreator]
  · intro r hall hash newId
    unfold signupHandler
    rw [if_neg (by exact fun h => h hall)]
    exact ⟨rfl, rfl⟩
  · intro em pw hem hpw compare secret now
    unfold loginHandler
    simp [truthyS, hem, hpw]
  · intro title description budget deadline ht hd hb hdl newId now
    unfold createTenderHandler
    have hcond : (truthyJ (some title) ∧ truthyJ (some description) ∧
        truthyI (some budget) ∧ truthyS (some deadline)) := by
      simp [truthyJ, truthyI, truthyS, ht, hd, hb, hdl]
    rw [if_neg (not_not_intro hcond)]
    exact ⟨rfl, rfl⟩
  · intro pt hpt htid huid newId now
    unfold applyHandler
    have hcond : (truthyS (some pt) ∧ ¬ tid.isEmpty ∧ ¬ uid.isEmpty) := by
      refine ⟨by simp [truthyS, hpt], htid, huid⟩
    rw [if_neg (not_not_intro hcond)]
    exact ⟨rfl, rfl⟩
  · intro q hq
    have hne : ¬ (lowerS q).isEmpty := by
      cases q with
      | nil => exact absurd rfl hq
      | cons a l => simp [lowerS]
    simp [searchHandler, hne]

/-- Store with one tender (creator "A") and one application on it, used to
instantiate the store-failure mapping. -/
def failDemoStore : Store := ⟨[], [cexTender], [cexApp]⟩

theorem store_failure_mapping_witness :
    (meHandler failDemoStore (some "boom") "A").status = 404 ∧
    (myTendersHandler failDemoStore (some "boom") "A").status = 500 ∧
    (othersTendersHandler failDemoStore (some "boom") "A").status = 500 ∧
    (myApplicationsHandler failDemoStore (some "boom") "A").status = 500 ∧
    (myWithApplicationsHandler failDemoStore (some "boom") "A").status = 500 ∧
    (getApplicationsForTender failDemoStore (some "boom") none "t1" "A").status = 403 ∧
    (getApplicationsForTender failDemoStore none (some "boom") "t1" "A").status = 500 ∧
    (updateApplicationStatus failDemoStore (some "boom") none none
        "a1" (some "accepted") "A").status = 404 ∧
    (updateApplicationStatus failDemoStore none (some "boom") none
        "a1" (some "accepted") "A").status = 403 ∧
    (updateApplicationStatus failDemoStore none none (some "boom")
        "a1" (some "accepted") "A").status = 500 ∧
    ((signupHandler failDemoStore (some "boom") none none (fun p => p) "u9"
        ⟨some "B", some "b@x", some "p", some "C", some "I", some "D", none⟩).1.status = 500 ∧
     (signupHandler failDemoStore (some "boom") none none (fun p => p) "u9"
        ⟨some "B", some "b@x", some "p", some "C", some "I", some "D", none⟩).2
       = failDemoStore) ∧
    (loginHandler failDemoStore (some "boom") (fun p h => p == h) 0 0
        (some "a@x") (some "p")).status = 500 ∧
    ((createTenderHandler failDemoStore (some "boom") "t9" 0 (some [97]) (some [98])
        (some 1) (some "d") "A").1.status = 500 ∧
     (createTenderHandler failDemoStore (some "boom") "t9" 0 (some [97]) (some [98])
        (some 1) (some "d") "A").2 = failDemoStore) ∧
    ((applyHandler failDemoStore (some "boom") "a9" 0 "t1" (some "p") "A").1.status = 500 ∧
     (applyHandler failDemoStore (some "boom") "a9" 0 "t1" (some "p") "A").2
       = failDemoStore) ∧
    (searchHandler failDemoStore (some "boom") (some [97]) "A").status = 500 :=
  ⟨(store_failure_mapping failDemoStore "boom" "A" "t1" "a1" none none none).1,
   (store_failure_mapping failDemoStore "boom" "A" "t1" "a1" none none none).2.1,
   (store_failure_mapping failDemoStore "boom" "A" "t1" "a1" none none none).2.2.1,
   (store_failure_mapping failDemoStore "boom" "A" "t1" "a1" none none none).2.2.2.1,
   (store_failure_mapping failDemoStore "boom" "A" "t1" "a1" none none none).2.2.2.2.1,
   (store_failure_mapping failDemoStore "boom" "A" "t1" "a1" none none none).2.2.2.2.2.1,
   (store_failure_mapping failDemoStore "boom" "A" "t1" "a1" none none
       none).2.2.2.2.2.2.1 cexTender (by rfl) (by rfl),
   (store_failure_mapping failDemoStore "boom" "A" "t1" "a1" none none
       none).2.2.2.2.2.2.2.1 (some "accepted") (Or.inl rfl),
   (store_failure_mapping failDemoStore "boom" "A" "t1" "a1" none none
       none).2.2.2.2.2.2.2.2.1 (some "accepted") cexApp (Or.inl rfl) (by rfl),
   (store_failure_mapping failDemoStore "boom" "A" "t1" "a1" none none
       none).2.2.2.2.2.2.2.2.2.1 (some "accepted") cexApp cexTender (Or.inl rfl)
     (by rfl) (by rfl) (by rfl),
   (store_failure_mapping failDemoStore "boom" "A" "t1" "a1" none none
       none).2.2.2.2.2.2.2.2.2.2.1
     ⟨some "B", some "b@x", some "p", some "C", some "I", some "D", none⟩
     (by decide) (fun p => p) "u9",
   (store_failure_mapping failDemoStore "boom" "A" "t1" "a1" none none
       none).2.2.2.2.2.2.2.2.2.2.2.1 "a@x" "p" (by decide) (by decide)
     (fun p h => p == h) 0 0,
   (store_failure_mapping failDemoStore "boom" "A" "t1" "a1" none none
       none).2.2.2.2.2.2.2.2.2.2.2.2.1 [97] [98] 1 "d" (by decide) (by decide)
     (by decide) (by decide) "t9" 0,
   (store_failure_mapping failDemoStore "boom" "A" "t1" "a1" none none
       none).2.2.2.2.2.2.2.2.2.2.2.2.2.1 "p" (by decide) (by decide) (by decide)
     "a9" 0,
   (store_failure_mapping failDemoStore "boom" "A" "t1" "a1" none none
       none).2.2.2.2.2.2.2.2.2.2.2.2.2.2 [97] (by decide)⟩

end B2B
